import Mathlib

/-!
Verification of the gateway service (`services/api-service`).

The service exposes three HTTP operations — `health_check`, `get_users` and
`get_user` — each of which performs one outbound HTTP GET to the upstream data
service and translates the outcome.  The embedding below models, for each
handler, the outcome of that single outbound call (`Upstream`) and the HTTP
result the handler produces (`HResult`), following `app/routers/health.py`,
`app/routers/users.py` and `app/models.py` line by line.
-/

/-- A parsed JSON value, as produced by `response.json()` in the handlers.
Numbers are modelled as integers, which covers every value the service
validates (the `id` field of `User`). -/
inductive Json where
  | null
  | bool (b : Bool)
  | num (n : Int)
  | str (s : String)
  | arr (elems : List Json)
  | obj (fields : List (String × Json))
deriving Repr

/-- Outcome of the single outbound `client.get` as seen by a handler:
either an HTTP response was received (with its status code, its body text as
used by `response.text`, and the result of `response.json()` — `Except.error`
when the body is not valid JSON, carrying `str(e)` of the decode error), or the
request failed with an `httpx.RequestError` (connection refused, DNS failure,
timeout — `kind` is `type(e).__name__`), or some other exception was raised
(`kind` is `type(e).__name__`, `msg` is `str(e)`). -/
inductive Upstream where
  | response (statusCode : Nat) (text : String) (body : Except String Json)
  | requestError (kind : String)
  | otherError (kind : String) (msg : String)
deriving Repr

/-- Result of a handler: a 200 response carrying the declared payload, or an
`HTTPException` with a status code and a detail string. -/
inductive HResult (α : Type) where
  | ok (value : α)
  | httpError (statusCode : Nat) (detail : String)
deriving Repr, DecidableEq

/-- The application settings of `app/config.py`, with their default values. -/
structure Settings where
  data_service_url : String
  port : Nat
  log_level : String
  app_name : String
  app_version : String
deriving Repr, DecidableEq

/-- The global settings instance with the defaults of `app/config.py`. -/
def settings : Settings :=
  { data_service_url := "http://data-service:8080"
    port := 8000
    log_level := "INFO"
    app_name := "API Service"
    app_version := "0.1.0" }

/-- The `User` model of `app/models.py`. -/
structure User where
  id : Int
  name : String
  email : String
deriving Repr, DecidableEq

/-- The `HealthResponse` model of `app/models.py`. -/
structure HealthResponse where
  status : String
  service : String
  version : String
  data_service_status : Option String
deriving Repr, DecidableEq

/-- `httpx.Response.is_success`: the status code is in the 2xx range.
`response.raise_for_status()` raises `httpx.HTTPStatusError` exactly when this
is false. -/
def is2xx (statusCode : Nat) : Bool :=
  decide (200 ≤ statusCode ∧ statusCode ≤ 299)

/-- Key lookup in the Python dict produced by `json.loads` for a JSON object;
a duplicated key keeps its last occurrence, as `json.loads` does. -/
def lookupField (fields : List (String × Json)) (key : String) : Option Json :=
  match fields with
  | [] => none
  | f :: rest =>
    match lookupField rest key with
    | some v => some v
    | none => if f.1 = key then some f.2 else none

/-- Accumulates the value of a run of decimal digits; `none` as soon as a
character is not a decimal digit. -/
def decDigitsVal (cs : List Char) (acc : Nat) : Option Nat :=
  match cs with
  | [] => some acc
  | c :: rest =>
    if c.isDigit then decDigitsVal rest (acc * 10 + (c.toNat - 48))
    else none

/-- Drops leading whitespace characters. -/
def dropWs : List Char → List Char
  | [] => []
  | c :: rest => if c.isWhitespace then dropWs rest else c :: rest

/-- Trims whitespace from both ends of a character list. -/
def trimChars (cs : List Char) : List Char :=
  (dropWs (dropWs cs).reverse).reverse

/-- The lax string-to-integer coercion of pydantic v2 (`str_as_int` in
pydantic-core) on decimal integer strings: surrounding whitespace is trimmed,
an optional sign precedes one or more decimal digits. -/
def str_as_int (s : String) : Option Int :=
  match trimChars s.data with
  | [] => none
  | '+' :: rest =>
    match rest with
    | [] => none
    | _ => (decDigitsVal rest 0).map (fun n => (n : Int))
  | '-' :: rest =>
    match rest with
    | [] => none
    | _ => (decDigitsVal rest 0).map (fun n => -(n : Int))
  | cs => (decDigitsVal cs 0).map (fun n => (n : Int))

/-- Lax validation of the `id` field: pydantic v2 accepts an integer and
coerces a decimal integer string to the integer; null, booleans, arrays and
objects are rejected (pydantic v2 rejects booleans for `int` fields). -/
def validateId : Json → Option Int
  | .num i => some i
  | .str s => str_as_int s
  | _ => none

/-- Pydantic validation of the `User` model (`app/models.py`): `id` an
integer (with the lax string coercion of `validateId`), `name` a string of
1 to 100 characters (`min_length=1`, `max_length=100`), `email` a string;
extra keys are ignored. -/
def validateUser (fields : List (String × Json)) : Option User :=
  match lookupField fields "id", lookupField fields "name", lookupField fields "email" with
  | some idv, some (.str n), some (.str e) =>
    match validateId idv with
    | some i =>
      if 1 ≤ n.length ∧ n.length ≤ 100 then some { id := i, name := n, email := e }
      else none
    | none => none
  | _, _, _ => none

/-- Models `User(**user)`: keyword expansion requires the value to be a mapping
(a JSON object) — otherwise a `TypeError` is raised — and then pydantic
validates the fields, raising `ValidationError` on failure. -/
def mkUser : Json → Except String User
  | .obj fields =>
    match validateUser fields with
    | some u => .ok u
    | none => .error "ValidationError"
  | _ => .error "TypeError: argument after ** must be a mapping"

/-- Whether a JSON value is an object, that is, a mapping after `json.loads`. -/
def isObj : Json → Bool
  | .obj _ => true
  | _ => false

/-- Failure categories on which pydantic rejects the object regardless of its
lax coercions: a missing id, name or email field; a name or email value that
is not a string; an empty name; a name longer than 100 characters; or an id
that is null, a boolean, an array or an object (none of which pydantic v2
coerces to an integer). -/
def badUserObject (fields : List (String × Json)) : Bool :=
  (match lookupField fields "id" with
   | some (.num _) => false
   | some (.str _) => false
   | _ => true) ||
  (match lookupField fields "name" with
   | some (.str n) => decide (n.length = 0) || decide (100 < n.length)
   | _ => true) ||
  (match lookupField fields "email" with
   | some (.str _) => false
   | _ => true)

/-- Python iteration over the parsed JSON value, as performed by
`for user in users_data`: a list yields its elements, a dict yields its keys,
a string yields its characters as one-character strings, and any other value
raises `TypeError`. -/
def pyIterate : Json → Except String (List Json)
  | .arr elems => .ok elems
  | .obj fields => .ok (fields.map (fun f => Json.str f.1))
  | .str s => .ok (s.data.map (fun c => Json.str (String.singleton c)))
  | _ => .error "TypeError: object is not iterable"

/-- The comprehension `[User(**user) for user in users_data]` over the already
iterated elements: builds the users left to right, stopping at the first
exception. -/
def buildUsers : List Json → Except String (List User)
  | [] => .ok []
  | item :: rest =>
    match mkUser item with
    | .ok u =>
      match buildUsers rest with
      | .ok us => .ok (u :: us)
      | .error e => .error e
    | .error e => .error e

/-- The `get_users` handler of `app/routers/users.py`: GET
`{data_service_url}/data/users` with a 5 second timeout, `raise_for_status()`,
then parse the body and build the user list.  `httpx.HTTPStatusError` maps to
the upstream status code with detail `"Data service error: {e.response.text}"`;
`httpx.RequestError` maps to 503 with detail
`"Data service unavailable: {type(e).__name__}"`; any other exception maps to
500 with detail `"Internal error: {str(e)}"`. -/
def get_users (upstream : Upstream) : HResult (List User) :=
  match upstream with
  | .response statusCode text body =>
    if is2xx statusCode then
      match body with
      | .ok usersData =>
        match pyIterate usersData with
        | .ok items =>
          match buildUsers items with
          | .ok users => .ok users
          | .error msg => .httpError 500 ("Internal error: " ++ msg)
        | .error msg => .httpError 500 ("Internal error: " ++ msg)
      | .error msg => .httpError 500 ("Internal error: " ++ msg)
    else
      .httpError statusCode ("Data service error: " ++ text)
  | .requestError kind => .httpError 503 ("Data service unavailable: " ++ kind)
  | .otherError _ msg => .httpError 500 ("Internal error: " ++ msg)

/-- The `get_user` handler of `app/routers/users.py`: GET
`{data_service_url}/data/users/{user_id}` with a 5 second timeout,
`raise_for_status()`, then parse the body and build the user.  On
`httpx.HTTPStatusError` with upstream status 404 it raises 404 with detail
`"User with ID {user_id} not found"`; other upstream statuses pass through with
detail `"Data service error: {e.response.text}"`; `httpx.RequestError` maps to
503; any other exception maps to 500. -/
def get_user (user_id : Int) (upstream : Upstream) : HResult User :=
  match upstream with
  | .response statusCode text body =>
    if is2xx statusCode then
      match body with
      | .ok userData =>
        match mkUser userData with
        | .ok u => .ok u
        | .error msg => .httpError 500 ("Internal error: " ++ msg)
      | .error msg => .httpError 500 ("Internal error: " ++ msg)
    else if statusCode = 404 then
      .httpError 404 s!"User with ID {user_id} not found"
    else
      .httpError statusCode ("Data service error: " ++ text)
  | .requestError kind => .httpError 503 ("Data service unavailable: " ++ kind)
  | .otherError _ msg => .httpError 500 ("Internal error: " ++ msg)

/-- The `health_check` handler of `app/routers/health.py`: GET
`{data_service_url}/actuator/health` with a 2 second timeout; never raises.
`data_service_status` starts as "unknown" and is overwritten on every path of
the try/except. -/
def health_check (upstream : Upstream) : HealthResponse :=
  let data_service_status :=
    match upstream with
    | .response statusCode _ _ =>
      if statusCode = 200 then "connected"
      else s!"unhealthy (status: {statusCode})"
    | .requestError kind => s!"unreachable ({kind})"
    | .otherError kind _ => s!"error ({kind})"
  { status := "healthy"
    service := settings.app_name
    version := settings.app_version
    data_service_status := some data_service_status }

/-- The route `GET /api/health`: the handler body never raises (every exception
of the outbound call is absorbed inside `health_check`), so FastAPI always
responds with the declared `status_code=200` and the returned payload. -/
def healthRoute (upstream : Upstream) : Nat × HealthResponse :=
  (200, health_check upstream)

/-- FastAPI serialization of a raised `HTTPException`: the default
`http_exception_handler` responds with the given status code and a JSON body
that is an object with a single `detail` field (no handler in `app/main.py`
overrides this, and the `ErrorResponse` model is only referenced in the OpenAPI
`responses` metadata). -/
def renderHTTPException (detail : String) : Json :=
  .obj [("detail", .str detail)]

/-- Whether a JSON value is an object that carries the given key. -/
def hasKey (j : Json) (key : String) : Bool :=
  match j with
  | .obj fields => fields.any (fun f => f.1 = key)
  | _ => false

/-! ### Helper lemmas -/

/-- A successful validation produces a user whose name length is within the
pydantic bounds `min_length=1`, `max_length=100`. -/
theorem validateUser_name_length {fields : List (String × Json)} {u : User}
    (h : validateUser fields = some u) :
    1 ≤ u.name.length ∧ u.name.length ≤ 100 := by
  unfold validateUser at h
  split at h
  · split at h
    · split at h
      · rename_i hcond
        cases h
        exact hcond
      · cases h
    · cases h
  · cases h

/-- A user built by `User(**user)` satisfies the pydantic name bounds. -/
theorem mkUser_name_length {j : Json} {u : User} (h : mkUser j = Except.ok u) :
    1 ≤ u.name.length ∧ u.name.length ≤ 100 := by
  cases j with
  | obj fields =>
    cases hv : validateUser fields with
    | none => simp [mkUser, hv] at h
    | some u2 =>
      have hu : u2 = u := by simpa [mkUser, hv] using h
      subst hu
      exact validateUser_name_length hv
  | null => simp [mkUser] at h
  | bool b => simp [mkUser] at h
  | num n => simp [mkUser] at h
  | str s => simp [mkUser] at h
  | arr elems => simp [mkUser] at h

/-- If every element of `items` builds the corresponding element of `users`,
the comprehension succeeds and returns exactly `users`. -/
theorem buildUsers_ok_of_forall₂ {items : List Json} {users : List User}
    (h : List.Forall₂ (fun j u => mkUser j = Except.ok u) items users) :
    buildUsers items = .ok users := by
  induction h with
  | nil => rfl
  | cons hju _ ih => simp [buildUsers, hju, ih]

/-- Every user produced by a successful comprehension satisfies the pydantic
name bounds. -/
theorem buildUsers_mem_name : ∀ {items : List Json} {users : List User},
    buildUsers items = Except.ok users →
    ∀ u ∈ users, 1 ≤ u.name.length ∧ u.name.length ≤ 100 := by
  intro items
  induction items with
  | nil =>
    intro users h u hu
    simp [buildUsers] at h
    subst h
    simp at hu
  | cons item rest ih =>
    intro users h u hu
    cases hm : mkUser item with
    | error e => simp [buildUsers, hm] at h
    | ok u1 =>
      cases hb : buildUsers rest with
      | error e => simp [buildUsers, hm, hb] at h
      | ok us =>
        have husers : users = u1 :: us := by
          have h2 := h
          simp [buildUsers, hm, hb] at h2
          exact h2.symm
        subst husers
        rcases List.mem_cons.mp hu with rfl | hu2
        · exact mkUser_name_length hm
        · exact ih hb u hu2

/-- A successful comprehension implies every iterated element builds a user. -/
theorem buildUsers_ok_elem : ∀ {items : List Json} {users : List User},
    buildUsers items = Except.ok users →
    ∀ j ∈ items, ∃ u, mkUser j = Except.ok u := by
  intro items
  induction items with
  | nil => intro users _ j hj; simp at hj
  | cons item rest ih =>
    intro users h j hj
    cases hm : mkUser item with
    | error e => simp [buildUsers, hm] at h
    | ok u1 =>
      cases hb : buildUsers rest with
      | error e => simp [buildUsers, hm, hb] at h
      | ok us =>
        rcases List.mem_cons.mp hj with rfl | hj2
        · exact ⟨u1, hm⟩
        · exact ih hb j hj2

/-- Exhaustive shape of the `get_users` result: a 200 with the user list, a
500 internal error, a 503 from a transport failure, or a passthrough of a
non-2xx upstream status. -/
theorem get_users_shape (upstream : Upstream) :
    (∃ users, get_users upstream = .ok users) ∨
    (∃ d, get_users upstream = .httpError 500 d) ∨
    (∃ kind, upstream = .requestError kind ∧
      get_users upstream = .httpError 503 ("Data service unavailable: " ++ kind)) ∨
    (∃ s t b, upstream = .response s t b ∧ is2xx s = false ∧
      get_users upstream = .httpError s ("Data service error: " ++ t)) := by
  cases upstream with
  | response s t b =>
    by_cases h : is2xx s = true
    · rcases b with m | j
      · right; left; exact ⟨"Internal error: " ++ m, by simp [get_users, h]⟩
      · cases hi : pyIterate j with
        | error m => right; left; exact ⟨"Internal error: " ++ m, by simp [get_users, h, hi]⟩
        | ok items =>
          cases hb : buildUsers items with
          | error m => right; left; exact ⟨"Internal error: " ++ m, by simp [get_users, h, hi, hb]⟩
          | ok users => left; exact ⟨users, by simp [get_users, h, hi, hb]⟩
    · right; right; right
      refine ⟨s, t, b, rfl, by simpa using h, ?_⟩
      simp [get_users, h]
  | requestError kind => right; right; left; exact ⟨kind, rfl, rfl⟩
  | otherError kind msg => right; left; exact ⟨"Internal error: " ++ msg, rfl⟩

/-- Exhaustive shape of the `get_user` result: a 200 with the user, a 500
internal error, a 503 from a transport failure, the translated 404, or a
passthrough of a non-2xx, non-404 upstream status. -/
theorem get_user_shape (user_id : Int) (upstream : Upstream) :
    (∃ u, get_user user_id upstream = .ok u) ∨
    (∃ d, get_user user_id upstream = .httpError 500 d) ∨
    (∃ kind, upstream = .requestError kind ∧
      get_user user_id upstream = .httpError 503 ("Data service unavailable: " ++ kind)) ∨
    (∃ t b, upstream = .response 404 t b ∧
      get_user user_id upstream = .httpError 404 s!"User with ID {user_id} not found") ∨
    (∃ s t b, upstream = .response s t b ∧ is2xx s = false ∧ s ≠ 404 ∧
      get_user user_id upstream = .httpError s ("Data service error: " ++ t)) := by
  cases upstream with
  | response s t b =>
    by_cases h : is2xx s = true
    · rcases b with m | j
      · right; left; exact ⟨"Internal error: " ++ m, by simp [get_user, h]⟩
      · cases hm : mkUser j with
        | error m => right; left; exact ⟨"Internal error: " ++ m, by simp [get_user, h, hm]⟩
        | ok u => left; exact ⟨u, by simp [get_user, h, hm]⟩
    · by_cases h404 : s = 404
      · subst h404
        right; right; right; left
        exact ⟨t, b, rfl, by simp [get_user, h]⟩
      · right; right; right; right
        refine ⟨s, t, b, rfl, by simpa using h, h404, ?_⟩
        simp [get_user, h, h404]
  | requestError kind => right; right; left; exact ⟨kind, rfl, rfl⟩
  | otherError kind msg => right; left; exact ⟨"Internal error: " ++ msg, rfl⟩

/-- The passthrough detail never coincides with the not-found message: the two
strings differ already at their first character. -/
theorem data_service_detail_ne_not_found (text msg : String) :
    "Data service error: " ++ text ≠ "User with ID " ++ msg := by
  intro h
  have h2 : ("Data service error: " ++ text).data = ("User with ID " ++ msg).data :=
    congrArg String.data h
  rw [String.data_append, String.data_append] at h2
  have h3 : some 'D' = some 'U' := congrArg List.head? h2
  simp at h3

/-! ### Claim theorems -/

/-- Claim C1 (confirmed): for every outcome of the upstream health call — an
HTTP 200 response, any other HTTP status, a transport failure, or any other
exception — the health route responds HTTP 200 and the payload has
status "healthy"; no upstream failure surfaces as a failure of the request. -/
theorem health_check_absorbs_upstream_failures (upstream : Upstream) :
    healthRoute upstream = (200, health_check upstream) ∧
    (health_check upstream).status = "healthy" :=
  ⟨rfl, rfl⟩

/-- Claim C2 (confirmed): `get_user` returns 404 with detail
"User with ID {id} not found" exactly when the upstream GET returned
HTTP status 404. -/
theorem get_user_not_found_iff_upstream_404 (user_id : Int) (upstream : Upstream) :
    get_user user_id upstream = .httpError 404 s!"User with ID {user_id} not found" ↔
      ∃ text body, upstream = .response 404 text body := by
  constructor
  · intro h
    cases upstream with
    | response s t b =>
      refine ⟨t, b, ?_⟩
      by_cases h2 : is2xx s = true
      · rcases b with m | j
        · simp [get_user, h2] at h
        · cases hm : mkUser j with
          | ok u => simp [get_user, h2, hm] at h
          | error m => simp [get_user, h2, hm] at h
      · by_cases h4 : s = 404
        · subst h4; rfl
        · simp [get_user, h2, h4] at h
    | requestError kind => simp [get_user] at h
    | otherError kind msg => simp [get_user] at h
  · rintro ⟨t, b, rfl⟩
    simp [get_user, is2xx]

/-- Witness for C2 at id 999 with the upstream returning 404. -/
theorem get_user_not_found_iff_upstream_404_witness :
    get_user 999 (.response 404 "missing" (.ok .null)) =
      .httpError 404 "User with ID 999 not found" :=
  (get_user_not_found_iff_upstream_404 999 (.response 404 "missing" (.ok .null))).mpr
    ⟨"missing", .ok .null, rfl⟩

/-- Claim C3 (code bug): at the spec scenario — upstream 404 for id 999 — the
handler raises 404 with the expected detail, but the HTTP body FastAPI
serializes for a raised `HTTPException` is an object with only a `detail`
field: the `status_code` field promised by the `ErrorResponse` model (and by
the OpenAPI `responses` metadata of the routes) is absent from the wire
body. -/
theorem error_response_body_lacks_status_code :
    get_user 999 (.response 404 "Not Found" (.ok .null)) =
      .httpError 404 "User with ID 999 not found" ∧
    renderHTTPException "User with ID 999 not found" =
      .obj [("detail", .str "User with ID 999 not found")] ∧
    hasKey (renderHTTPException "User with ID 999 not found") "detail" = true ∧
    hasKey (renderHTTPException "User with ID 999 not found") "status_code" = false :=
  ⟨rfl, rfl, rfl, rfl⟩

/-- Claim C10 (confirmed): an upstream 404 on the collection endpoint is passed
through by `get_users` as a plain upstream HTTP error — with the upstream body
text embedded in the detail — and that detail is never the not-found message
special to `get_user`. -/
theorem list_users_404_passthrough_message (text : String) (body : Except String Json) :
    get_users (.response 404 text body) =
      .httpError 404 ("Data service error: " ++ text) ∧
    ∀ msg : String, "Data service error: " ++ text ≠ "User with ID " ++ msg := by
  refine ⟨?_, fun msg => data_service_detail_ne_not_found text msg⟩
  simp [get_users, is2xx]

/-- Witness for C10 with a concrete upstream 404. -/
theorem list_users_404_passthrough_message_witness :
    get_users (.response 404 "gone" (.ok .null)) =
      .httpError 404 "Data service error: gone" :=
  (list_users_404_passthrough_message "gone" (.ok .null)).1

/-- Claim C4 (confirmed): on an upstream 2xx response whose JSON body is an
array of valid user objects — `users` being the pointwise validated list —
`get_users` returns exactly that list, hence with the same count and in the
same order as the upstream array (including the empty array). -/
theorem list_users_preserves_order_and_count (s : Nat) (t : String)
    (items : List Json) (users : List User) (h2xx : is2xx s = true)
    (hvalid : List.Forall₂ (fun j u => mkUser j = Except.ok u) items users) :
    get_users (.response s t (.ok (.arr items))) = .ok users ∧
    users.length = items.length := by
  have hb : buildUsers items = .ok users := buildUsers_ok_of_forall₂ hvalid
  refine ⟨?_, hvalid.length_eq.symm⟩
  simp [get_users, h2xx, pyIterate, hb]

/-- Witness for C4 on the spec scenario array of two users. -/
theorem list_users_preserves_order_and_count_witness :
    get_users (.response 200 "" (.ok (.arr
      [.obj [("id", .num 1), ("name", .str "John Doe"), ("email", .str "john@example.com")],
       .obj [("id", .num 2), ("name", .str "Jane Smith"), ("email", .str "jane@example.com")]]))) =
      .ok [{ id := 1, name := "John Doe", email := "john@example.com" },
           { id := 2, name := "Jane Smith", email := "jane@example.com" }] :=
  (list_users_preserves_order_and_count 200 ""
    [.obj [("id", .num 1), ("name", .str "John Doe"), ("email", .str "john@example.com")],
     .obj [("id", .num 2), ("name", .str "Jane Smith"), ("email", .str "jane@example.com")]]
    [{ id := 1, name := "John Doe", email := "john@example.com" },
     { id := 2, name := "Jane Smith", email := "jane@example.com" }]
    (by decide)
    (List.Forall₂.cons rfl (List.Forall₂.cons rfl List.Forall₂.nil))).1

/-- Claim C5 counterexample: an upstream HTTP 503 response — received over the
wire, hence not a transport-level failure — is passed through by `get_users`
as a 503, so 503 does not imply a transport failure. -/
theorem upstream_503_passthrough_counterexample :
    get_users (.response 503 "upstream overloaded" (.ok .null)) =
      .httpError 503 "Data service error: upstream overloaded" :=
  rfl

/-- Claim C5 amended: `get_users` and `get_user` respond 503 exactly when the
upstream call fails at the transport level (timeout included, since
`httpx.TimeoutException` is an `httpx.RequestError`) or the upstream itself
responds with HTTP status 503, which is passed through. -/
theorem status_503_iff_transport_or_upstream_503 (user_id : Int) (upstream : Upstream) :
    ((∃ d, get_users upstream = .httpError 503 d) ↔
      ((∃ kind, upstream = .requestError kind) ∨ (∃ t b, upstream = .response 503 t b))) ∧
    ((∃ d, get_user user_id upstream = .httpError 503 d) ↔
      ((∃ kind, upstream = .requestError kind) ∨ (∃ t b, upstream = .response 503 t b))) := by
  constructor
  · constructor
    · rintro ⟨d, hd⟩
      rcases get_users_shape upstream with ⟨us, h⟩ | ⟨d2, h⟩ | ⟨k, hk, h⟩ | ⟨s, t, b, he, h2, h⟩
      · rw [hd] at h; cases h
      · rw [hd] at h
        cases h
      · exact Or.inl ⟨k, hk⟩
      · rw [hd] at h
        cases h
        exact Or.inr ⟨t, b, he⟩
    · rintro (⟨k, rfl⟩ | ⟨t, b, rfl⟩)
      · exact ⟨_, rfl⟩
      · exact ⟨"Data service error: " ++ t, by simp [get_users, is2xx]⟩
  · constructor
    · rintro ⟨d, hd⟩
      rcases get_user_shape user_id upstream with
        ⟨u, h⟩ | ⟨d2, h⟩ | ⟨k, hk, h⟩ | ⟨t, b, he, h⟩ | ⟨s, t, b, he, h2, h4, h⟩
      · rw [hd] at h; cases h
      · rw [hd] at h
        cases h
      · exact Or.inl ⟨k, hk⟩
      · rw [hd] at h
        cases h
      · rw [hd] at h
        cases h
        exact Or.inr ⟨t, b, he⟩
    · rintro (⟨k, rfl⟩ | ⟨t, b, rfl⟩)
      · exact ⟨_, rfl⟩
      · exact ⟨"Data service error: " ++ t, by simp [get_user, is2xx]⟩

/-- Witness for the amended C5: a concrete transport failure yields a 503. -/
theorem status_503_iff_transport_witness :
    ∃ d, get_users (.requestError "ConnectError") = .httpError 503 d :=
  (status_503_iff_transport_or_upstream_503 1 (.requestError "ConnectError")).1.mpr
    (Or.inl ⟨"ConnectError", rfl⟩)

/-- Claim C6 (confirmed): any upstream non-2xx status other than 404 makes
`get_user` respond with exactly the upstream status code, the upstream body
text embedded in the detail string. -/
theorem get_user_non404_error_passthrough (user_id : Int) (s : Nat) (t : String)
    (b : Except String Json) (hs : is2xx s = false) (h404 : s ≠ 404) :
    get_user user_id (.response s t b) = .httpError s ("Data service error: " ++ t) ∧
    ∃ before : String, "Data service error: " ++ t = before ++ t := by
  refine ⟨?_, "Data service error: ", rfl⟩
  simp [get_user, hs, h404]

/-- Witness for C6 at an upstream 500. -/
theorem get_user_non404_error_passthrough_witness :
    get_user 7 (.response 500 "boom" (.ok .null)) =
      .httpError 500 "Data service error: boom" :=
  (get_user_non404_error_passthrough 7 500 "boom" (.ok .null) (by decide) (by decide)).1

/-- Claim C7 counterexample: an upstream 404 on the collection endpoint makes
`get_users` respond 404 — a status other than 200, 503 and 500 — so the
enumeration of the claim is incomplete. -/
theorem list_users_404_status_counterexample :
    get_users (.response 404 "nothing here" (.ok .null)) =
      .httpError 404 "Data service error: nothing here" :=
  rfl

/-- Claim C7 amended: every `get_users` result is a 200 with the user list, a
503, a 500, or a passthrough of the upstream response status (which can be any
non-2xx status). -/
theorem list_users_result_shape (upstream : Upstream) :
    (∃ users, get_users upstream = .ok users) ∨
    (∃ d, get_users upstream = .httpError 503 d) ∨
    (∃ d, get_users upstream = .httpError 500 d) ∨
    (∃ s t b d, upstream = .response s t b ∧ is2xx s = false ∧
      get_users upstream = .httpError s d) := by
  rcases get_users_shape upstream with ⟨us, h⟩ | ⟨d, h⟩ | ⟨k, hk, h⟩ | ⟨s, t, b, he, h2, h⟩
  · exact Or.inl ⟨us, h⟩
  · exact Or.inr (Or.inr (Or.inl ⟨d, h⟩))
  · exact Or.inr (Or.inl ⟨_, h⟩)
  · exact Or.inr (Or.inr (Or.inr ⟨s, t, b, _, he, h2, h⟩))

/-- Witness for the amended C7 at a concrete transport failure. -/
theorem list_users_result_shape_witness :
    (∃ users, get_users (.requestError "ReadTimeout") = .ok users) ∨
    (∃ d, get_users (.requestError "ReadTimeout") = .httpError 503 d) ∨
    (∃ d, get_users (.requestError "ReadTimeout") = .httpError 500 d) ∨
    (∃ s t b d, Upstream.requestError "ReadTimeout" = .response s t b ∧ is2xx s = false ∧
      get_users (.requestError "ReadTimeout") = .httpError s d) :=
  list_users_result_shape (.requestError "ReadTimeout")

/-- Claim C8 (confirmed): the four cases for `data_service_status` — they
partition the outcomes of the upstream call by constructor and by the 200
test: "connected" on upstream 200, "unhealthy (status: s)" on any other
status, "unreachable (kind)" on a transport failure, and "error (kind)" on
any other exception. -/
theorem health_data_service_status_mapping (upstream : Upstream) :
    (∀ t b, upstream = .response 200 t b →
      (health_check upstream).data_service_status = some "connected") ∧
    (∀ s t b, upstream = .response s t b → s ≠ 200 →
      (health_check upstream).data_service_status = some s!"unhealthy (status: {s})") ∧
    (∀ kind, upstream = .requestError kind →
      (health_check upstream).data_service_status = some s!"unreachable ({kind})") ∧
    (∀ kind msg, upstream = .otherError kind msg →
      (health_check upstream).data_service_status = some s!"error ({kind})") := by
  refine ⟨?_, ?_, ?_, ?_⟩
  · rintro t b rfl
    rfl
  · rintro s t b rfl hs
    simp [health_check, hs]
  · rintro kind rfl
    rfl
  · rintro kind msg rfl
    rfl

/-- Witness for C8 at an upstream 500 response. -/
theorem health_data_service_status_mapping_witness :
    (health_check (.response 500 "" (.ok .null))).data_service_status =
      some "unhealthy (status: 500)" :=
  (health_data_service_status_mapping (.response 500 "" (.ok .null))).2.1
    500 "" (.ok .null) rfl (by decide)

/-- Claim C9 counterexample: an upstream 200 whose body is the empty JSON
object — valid JSON, with id, name and email all missing — makes `get_users`
return 200 with the empty list instead of failing with 500: Python iteration
over an empty dict yields no elements, so the comprehension builds nothing. -/
theorem list_users_malformed_body_counterexample :
    get_users (.response 200 "" (.ok (.obj []))) = .ok [] :=
  rfl

/-- A value that is not a JSON object makes `User(**user)` raise `TypeError`:
keyword expansion needs a mapping. -/
theorem mkUser_error_of_not_obj {j : Json} (h : isObj j = false) :
    mkUser j = .error "TypeError: argument after ** must be a mapping" := by
  cases j <;> first | rfl | simp [isObj] at h

/-- Each `badUserObject` category makes the pydantic validation fail. -/
theorem validateUser_none_of_bad {fields : List (String × Json)}
    (h : badUserObject fields = true) : validateUser fields = none := by
  unfold badUserObject at h
  unfold validateUser
  split
  · rename_i idv n e hid hname hemail
    rw [hid, hname, hemail] at h
    cases idv with
    | num i =>
      simp at h
      have hc : ¬(1 ≤ n.length ∧ n.length ≤ 100) := by
        rcases h with h | h <;> omega
      simp [validateId, hc]
    | str s2 =>
      simp at h
      have hc : ¬(1 ≤ n.length ∧ n.length ≤ 100) := by
        rcases h with h | h <;> omega
      cases hsi : str_as_int s2 with
      | none => simp [validateId, hsi]
      | some i => simp [validateId, hsi, hc]
    | null => rfl
    | bool b => rfl
    | arr elems => rfl
    | obj fs => rfl
  · rfl

/-- An element of the body array on which `User(**user)` raises makes the
whole comprehension raise, so `get_users` responds 500. -/
theorem get_users_500_of_elem_error {s : Nat} {t : String} {items : List Json} {j : Json}
    (h2 : is2xx s = true) (hj : j ∈ items) (e : String) (he : mkUser j = Except.error e) :
    ∃ d, get_users (.response s t (.ok (.arr items))) = .httpError 500 d := by
  cases hb : buildUsers items with
  | ok us =>
    rcases buildUsers_ok_elem hb j hj with ⟨u, hu⟩
    rw [he] at hu
    cases hu
  | error d =>
    exact ⟨"Internal error: " ++ d, by simp [get_users, h2, pyIterate, hb]⟩

/-- Claim C9 amended: on a 2xx upstream response, a body that is not valid
JSON yields a 500 from both endpoints; `get_user` yields a 500 when the body
is not a JSON object, or is an object in one of the failure categories the
lax pydantic coercions cannot save (missing id, name or email; non-string
name or email; empty name; name longer than 100 characters; id null, boolean,
array or object), and `get_users` likewise when any element of a body array
is such a value — except that `get_users` returns 200 with the empty list
when Python iteration of the body yields no elements (empty object, empty
string); and every `User` value either handler returns has an integer id and
a name of 1 to 100 characters. -/
theorem users_validation_behaviour (user_id : Int) :
    (∀ upstream u, get_user user_id upstream = .ok u →
      1 ≤ u.name.length ∧ u.name.length ≤ 100) ∧
    (∀ upstream users u, get_users upstream = .ok users → u ∈ users →
      1 ≤ u.name.length ∧ u.name.length ≤ 100) ∧
    (∀ s t m, is2xx s = true →
      get_user user_id (.response s t (.error m)) = .httpError 500 ("Internal error: " ++ m)) ∧
    (∀ s t m, is2xx s = true →
      get_users (.response s t (.error m)) = .httpError 500 ("Internal error: " ++ m)) ∧
    (∀ s t j, is2xx s = true → isObj j = false →
      get_user user_id (.response s t (.ok j)) =
        .httpError 500 "Internal error: TypeError: argument after ** must be a mapping") ∧
    (∀ s t fields, is2xx s = true → badUserObject fields = true →
      get_user user_id (.response s t (.ok (.obj fields))) =
        .httpError 500 "Internal error: ValidationError") ∧
    (∀ s t items j, is2xx s = true → j ∈ items → isObj j = false →
      ∃ d, get_users (.response s t (.ok (.arr items))) = .httpError 500 d) ∧
    (∀ s t items fields, is2xx s = true → Json.obj fields ∈ items →
      badUserObject fields = true →
      ∃ d, get_users (.response s t (.ok (.arr items))) = .httpError 500 d) := by
  refine ⟨?_, ?_, ?_, ?_, ?_, ?_, ?_, ?_⟩
  · intro upstream u h
    cases upstream with
    | response s t b =>
      by_cases h2 : is2xx s = true
      · rcases b with m | j
        · simp [get_user, h2] at h
        · cases hm : mkUser j with
          | error m => simp [get_user, h2, hm] at h
          | ok u1 =>
            have hu : u1 = u := by simpa [get_user, h2, hm] using h
            subst hu
            exact mkUser_name_length hm
      · by_cases h4 : s = 404
        · subst h4; simp [get_user, h2] at h
        · simp [get_user, h2, h4] at h
    | requestError k => simp [get_user] at h
    | otherError k m => simp [get_user] at h
  · intro upstream users u h hu
    cases upstream with
    | response s t b =>
      by_cases h2 : is2xx s = true
      · rcases b with m | j
        · simp [get_users, h2] at h
        · cases hi : pyIterate j with
          | error m => simp [get_users, h2, hi] at h
          | ok items =>
            cases hb : buildUsers items with
            | error m => simp [get_users, h2, hi, hb] at h
            | ok us =>
              have hus : us = users := by simpa [get_users, h2, hi, hb] using h
              subst hus
              exact buildUsers_mem_name hb u hu
      · simp [get_users, h2] at h
    | requestError k => simp [get_users] at h
    | otherError k m => simp [get_users] at h
  · intro s t m h2
    simp [get_user, h2]
  · intro s t m h2
    simp [get_users, h2]
  · intro s t j h2 hobj
    simp [get_user, h2, mkUser_error_of_not_obj hobj]
  · intro s t fields h2 hbad
    have hv := validateUser_none_of_bad hbad
    simp [get_user, h2, mkUser, hv]
  · intro s t items j h2 hj hobj
    exact get_users_500_of_elem_error h2 hj _ (mkUser_error_of_not_obj hobj)
  · intro s t items fields h2 hj hbad
    have hv := validateUser_none_of_bad hbad
    exact get_users_500_of_elem_error h2 hj "ValidationError" (by simp [mkUser, hv])

/-- Witness for the amended C9: a 2xx body that is not valid JSON yields a
500 internal error from `get_users`. -/
theorem users_validation_behaviour_witness :
    get_users (.response 200 "" (.error "Expecting value")) =
      .httpError 500 "Internal error: Expecting value" :=
  (users_validation_behaviour 1).2.2.2.1 200 "" "Expecting value" (by decide)
